import Mathlib

/-!
Verification development for the LangChainAssistant frontend.

The frontend consists of an API client wrapping HTTP calls to a backend
(functions sendChatMessage, checkHealth, getSources, reindexDocuments),
a chat view-state controller (handleSubmit and the React state setters of
ChatInterface), and pure presentation components.

The embedding below models:
  - the wire data types of the API client;
  - each API function as a map from the outcome of its single HTTP call
    to either a returned value or a thrown error, mirroring the
    try/catch logic of the source;
  - the controller state as a record of the React state hooks of
    ChatInterface, plus the list of requests currently in flight;
  - handleSubmit split into its synchronous part (before the awaited
    call) and the two continuations (success / failure), composed into
    one atomic function when the interleaving does not matter.

Numbers on the wire (processing_time) are modelled as rationals: they are
only passed through, never computed with.
-/

namespace LangChainAssistant

/-! ### Wire data model (API client module) -/

/-- The service filter enumeration: `'all' | 'langchain' | 'langgraph' | 'langsmith'`. -/
inductive ServiceFilter where
  | all
  | langchain
  | langgraph
  | langsmith
deriving DecidableEq, Repr

/-- A cited documentation snippet, as returned by the backend. -/
structure Source where
  title : String
  url : String
  content_preview : String
  service : String
deriving DecidableEq, Repr

/-- Body of `POST /api/chat`. -/
structure ChatRequest where
  question : String
  service_filter : ServiceFilter
deriving DecidableEq, Repr

/-- Response of `POST /api/chat`. -/
structure ChatResponse where
  answer : String
  sources : List Source
  processing_time : Rat
deriving DecidableEq, Repr

/-- Response of `GET /api/health`. -/
structure HealthResponse where
  status : String
  vector_store_ready : Bool
  indexed_documents : Nat
deriving DecidableEq, Repr

/-- One entry of the `GET /api/sources` response. -/
structure ServiceInfo where
  name : String
  id : String
  description : String
  docs_url : String
deriving DecidableEq, Repr

/-- Body of the `GET /api/sources` response: `{ sources: ServiceInfo[] }`. -/
structure SourcesResponseBody where
  sources : List ServiceInfo
deriving DecidableEq, Repr

/-! ### API client error model -/

/-- An opaque JS value thrown by code other than the HTTP client
(anything that is not an AxiosError). Only its identity matters. -/
structure ThrownValue where
  payload : Nat
deriving DecidableEq, Repr

/-- How a single HTTP call can fail, as observed in the catch block:
either an AxiosError (carrying `error.response?.data?.detail` when the
whole optional chain is present — `none` covers a missing response,
missing data, or missing detail field, in particular every pure
transport/timeout failure), or any other thrown value. -/
inductive HttpFailure where
  | axios (detail : Option String)
  | other (e : ThrownValue)
deriving DecidableEq, Repr

/-- The outcome of the single HTTP call an API function performs. -/
inductive ApiOutcome (α : Type) where
  | ok (data : α)
  | err (failure : HttpFailure)
deriving DecidableEq, Repr

/-- What an API function throws to its caller: a freshly constructed
`new Error(message)`, or a foreign value rethrown unchanged. -/
inductive ClientError where
  | newError (message : String)
  | rethrown (e : ThrownValue)
deriving DecidableEq, Repr

/-- JS `v || dflt` where `v` is an optionally present string: the
default is used when `v` is absent or is the empty string (the empty
string is falsy in JS). -/
def jsStringOr (v : Option String) (dflt : String) : String :=
  match v with
  | some s => if s = "" then dflt else s
  | none => dflt

/-! ### API client functions -/

/-- The request body `sendChatMessage` posts to `/api/chat`. -/
def sendChatMessageRequest (question : String) (serviceFilter : ServiceFilter) : ChatRequest :=
  { question := question, service_filter := serviceFilter }

/-- `sendChatMessage(question, serviceFilter)`: on success returns the
response body; on an AxiosError throws
`new Error(error.response?.data?.detail || 'Failed to get response')`;
rethrows any other error unchanged. -/
def sendChatMessage (question : String) (serviceFilter : ServiceFilter)
    (outcome : ApiOutcome ChatResponse) : Except ClientError ChatResponse :=
  match outcome with
  | .ok data => .ok data
  | .err (.axios detail) => .error (.newError (jsStringOr detail "Failed to get response"))
  | .err (.other e) => .error (.rethrown e)

/-- `checkHealth()`: on success returns the response body; on any
AxiosError throws `new Error('API is unavailable')`; rethrows any other
error unchanged. -/
def checkHealth (outcome : ApiOutcome HealthResponse) : Except ClientError HealthResponse :=
  match outcome with
  | .ok data => .ok data
  | .err (.axios _) => .error (.newError "API is unavailable")
  | .err (.other e) => .error (.rethrown e)

/-- `getSources()`: on success returns `response.data.sources`; on any
AxiosError throws `new Error('Failed to fetch sources')`; rethrows any
other error unchanged. -/
def getSources (outcome : ApiOutcome SourcesResponseBody) : Except ClientError (List ServiceInfo) :=
  match outcome with
  | .ok data => .ok data.sources
  | .err (.axios _) => .error (.newError "Failed to fetch sources")
  | .err (.other e) => .error (.rethrown e)

/-- The query parameter `reindexDocuments` sends: `services.join(',')`
when a services list was supplied, nothing otherwise. -/
def reindexParams (services : Option (List String)) : Option String :=
  services.map (fun l => String.intercalate "," l)

/-- `reindexDocuments(services?)`: no return payload; on an AxiosError
throws `new Error(error.response?.data?.detail || 'Failed to reindex')`;
rethrows any other error unchanged. -/
def reindexDocuments (services : Option (List String)) (outcome : ApiOutcome Unit) :
    Except ClientError Unit :=
  match outcome with
  | .ok _ => .ok ()
  | .err (.axios detail) => .error (.newError (jsStringOr detail "Failed to reindex"))
  | .err (.other e) => .error (.rethrown e)

/-! ### Chat view-state controller (ChatInterface) -/

/-- Message role: `'user' | 'assistant'`. -/
inductive Role where
  | user
  | assistant
deriving DecidableEq, Repr

/-- A chat message as held in the controller's list. `sources` and
`processingTime` are set only on assistant messages built from a
response. Timestamps (`Date.now()` / `new Date()`) are modelled as
natural numbers (milliseconds). -/
structure Message where
  id : String
  role : Role
  content : String
  sources : Option (List Source)
  processingTime : Option Rat
  timestamp : Nat
deriving DecidableEq, Repr

/-- The controller state: the React state hooks of ChatInterface, plus
`inFlight`, the list of backend requests issued and not yet resolved
(in order of issue). -/
structure ChatState where
  messages : List Message
  input : String
  isLoading : Bool
  error : Option String
  serviceFilter : ServiceFilter
  isFullScreen : Bool
  inFlight : List ChatRequest
deriving DecidableEq, Repr

/-- The initial values of the state hooks: `[]`, `''`, `false`, `null`,
`'all'`, `true`; no request in flight. -/
def initState : ChatState :=
  { messages := []
    input := ""
    isLoading := false
    error := none
    serviceFilter := .all
    isFullScreen := true
    inFlight := [] }

/-- A value caught by handleSubmit's catch block: either an `Error`
instance (carrying its message) or some other thrown value. -/
inductive CaughtError where
  | jsError (message : String)
  | nonError (v : ThrownValue)
deriving DecidableEq, Repr

/-- `err instanceof Error ? err.message : 'An error occurred'`. -/
def caughtErrorMessage : CaughtError → String
  | .jsError m => m
  | .nonError _ => "An error occurred"

/-- JS `s.trim()`: remove leading and trailing whitespace. Modelled on
the character list so that it evaluates inside the kernel (Lean's own
String.trim is expressed through Substring helpers that do not
reduce). -/
def jsTrim (s : String) : String :=
  String.mk (((s.data.dropWhile Char.isWhitespace).reverse.dropWhile Char.isWhitespace).reverse)

/-- The outcome of the awaited `sendChatMessage` call inside
handleSubmit. -/
inductive RequestOutcome where
  | success (resp : ChatResponse)
  | failure (err : CaughtError)
deriving DecidableEq, Repr

/-- The synchronous part of handleSubmit, up to the awaited call:
`if (!input.trim() || isLoading) return;` then build the user message
from the trimmed input, append it, clear the input, set loading, clear
the error, and issue the request
`sendChatMessage(userMessage.content, serviceFilter)`. -/
def submitStart (s : ChatState) (now : Nat) : ChatState :=
  if jsTrim s.input = "" ∨ s.isLoading = true then s
  else
    let userMessage : Message :=
      { id := toString now
        role := .user
        content := jsTrim s.input
        sources := none
        processingTime := none
        timestamp := now }
    { s with
        messages := s.messages ++ [userMessage]
        input := ""
        isLoading := true
        error := none
        inFlight :=
          s.inFlight ++ [{ question := userMessage.content, service_filter := s.serviceFilter }] }

/-- The success continuation of handleSubmit: build the assistant
message from the response (content, sources, processing time), append
it, and (finally block) clear the loading flag; the resolved request
leaves the in-flight list. -/
def resolveSuccess (s : ChatState) (resp : ChatResponse) (later : Nat) : ChatState :=
  let assistantMessage : Message :=
    { id := toString (later + 1)
      role := .assistant
      content := resp.answer
      sources := some resp.sources
      processingTime := some resp.processing_time
      timestamp := later }
  { s with
      messages := s.messages ++ [assistantMessage]
      isLoading := false
      inFlight := s.inFlight.drop 1 }

/-- The failure continuation of handleSubmit: record the error message,
remove the most recently appended message (`prev.slice(0, -1)`), and
(finally block) clear the loading flag; the resolved request leaves the
in-flight list. -/
def resolveFailure (s : ChatState) (err : CaughtError) : ChatState :=
  { s with
      error := some (caughtErrorMessage err)
      messages := s.messages.dropLast
      isLoading := false
      inFlight := s.inFlight.drop 1 }

/-- The whole of handleSubmit, atomically: the synchronous part followed
by the continuation selected by the outcome of the awaited call. When
the guard rejects the submission (empty trimmed input, or already
loading) the state is returned unchanged and no request is issued. -/
def handleSubmit (s : ChatState) (now : Nat) (outcome : RequestOutcome) (later : Nat) :
    ChatState :=
  if jsTrim s.input = "" ∨ s.isLoading = true then s
  else
    match outcome with
    | .success resp => resolveSuccess (submitStart s now) resp later
    | .failure err => resolveFailure (submitStart s now) err

/-- `setInput(v)`: the textarea onChange handler / example-question
click. -/
def setInput (s : ChatState) (v : String) : ChatState :=
  { s with input := v }

/-- `setServiceFilter(f)`: the ServiceSelector's onChange handler. -/
def setServiceFilter (s : ChatState) (f : ServiceFilter) : ChatState :=
  { s with serviceFilter := f }

/-- `toggleFullScreen()`. -/
def toggleFullScreen (s : ChatState) : ChatState :=
  { s with isFullScreen := !s.isFullScreen }

/-! ### Small-step semantics of the controller

One step is one event handler invocation, with handleSubmit split at
its await point: `submit` performs the synchronous part (a rejected
submission is the identity), and `success` / `failure` run the
continuation of a pending request. The continuations can only fire
while a request is in flight. -/

/-- One controller transition. -/
inductive Step : ChatState → ChatState → Prop where
  | setInput (s : ChatState) (v : String) : Step s (LangChainAssistant.setInput s v)
  | setFilter (s : ChatState) (f : ServiceFilter) :
      Step s (LangChainAssistant.setServiceFilter s f)
  | toggleFullScreen (s : ChatState) : Step s (LangChainAssistant.toggleFullScreen s)
  | submit (s : ChatState) (now : Nat) : Step s (submitStart s now)
  | success (s : ChatState) (resp : ChatResponse) (later : Nat) :
      s.inFlight ≠ [] → Step s (resolveSuccess s resp later)
  | failure (s : ChatState) (err : CaughtError) :
      s.inFlight ≠ [] → Step s (resolveFailure s err)

/-- States reachable from the initial state by controller transitions. -/
inductive Reachable : ChatState → Prop where
  | init : Reachable initState
  | step {s s' : ChatState} : Reachable s → Step s s' → Reachable s'

/-- The controller invariant: the loading flag tracks whether a request
is in flight, at most one request is ever in flight, and while loading
the message list is non-empty (it ends with the triggering user
message). -/
def Inv (s : ChatState) : Prop :=
  (s.isLoading = true ↔ s.inFlight ≠ []) ∧
  s.inFlight.length ≤ 1 ∧
  (s.isLoading = true → s.messages ≠ [])

theorem submitStart_rejected {s : ChatState} {now : Nat}
    (h : jsTrim s.input = "" ∨ s.isLoading = true) : submitStart s now = s := by
  unfold submitStart
  rw [if_pos h]

theorem submitStart_accepted {s : ChatState} {now : Nat}
    (h1 : jsTrim s.input ≠ "") (h2 : s.isLoading = false) :
    submitStart s now =
      { s with
          messages := s.messages ++
            [{ id := toString now, role := .user, content := jsTrim s.input,
               sources := none, processingTime := none, timestamp := now }]
          input := ""
          isLoading := true
          error := none
          inFlight :=
            s.inFlight ++ [{ question := jsTrim s.input, service_filter := s.serviceFilter }] } := by
  unfold submitStart
  rw [if_neg]
  push_neg
  refine ⟨h1, ?_⟩
  rw [h2]
  exact Bool.false_ne_true

theorem inv_initState : Inv initState := by
  refine ⟨?_, ?_, ?_⟩ <;> simp [initState, Inv]

theorem inv_step {s s' : ChatState} (hinv : Inv s) (h : Step s s') : Inv s' := by
  obtain ⟨hiff, hlen, hmsg⟩ := hinv
  cases h with
  | setInput v => exact ⟨hiff, hlen, hmsg⟩
  | setFilter f => exact ⟨hiff, hlen, hmsg⟩
  | toggleFullScreen => exact ⟨hiff, hlen, hmsg⟩
  | submit now =>
      by_cases hg : jsTrim s.input = "" ∨ s.isLoading = true
      · rw [submitStart_rejected hg]
        exact ⟨hiff, hlen, hmsg⟩
      · push_neg at hg
        have hload : s.isLoading = false := by
          cases hb : s.isLoading with
          | false => rfl
          | true => exact absurd hb hg.2
        have hempty : s.inFlight = [] := by
          by_contra hne
          have := hiff.mpr hne
          rw [hload] at this
          exact Bool.false_ne_true this
        rw [submitStart_accepted hg.1 hload]
        refine ⟨?_, ?_, ?_⟩
        · simp
        · simp [hempty]
        · intro _
          simp
  | success resp later hne =>
      have hone : s.inFlight.length = 1 :=
        Nat.le_antisymm hlen (List.length_pos.mpr hne)
      obtain ⟨a, ha⟩ := List.length_eq_one.mp hone
      refine ⟨?_, ?_, ?_⟩
      · simp [resolveSuccess, ha]
      · simp [resolveSuccess, ha]
      · intro hcontra
        exact absurd hcontra (by simp [resolveSuccess])
  | failure err hne =>
      have hone : s.inFlight.length = 1 :=
        Nat.le_antisymm hlen (List.length_pos.mpr hne)
      obtain ⟨a, ha⟩ := List.length_eq_one.mp hone
      refine ⟨?_, ?_, ?_⟩
      · simp [resolveFailure, ha]
      · simp [resolveFailure, ha]
      · intro hcontra
        exact absurd hcontra (by simp [resolveFailure])

theorem inv_reachable {s : ChatState} (h : Reachable s) : Inv s := by
  induction h with
  | init => exact inv_initState
  | step _ hstep ih => exact inv_step ih hstep

theorem handleSubmit_rejected {s : ChatState} {now later : Nat} {outcome : RequestOutcome}
    (h : jsTrim s.input = "" ∨ s.isLoading = true) : handleSubmit s now outcome later = s := by
  unfold handleSubmit
  rw [if_pos h]

theorem handleSubmit_accepted {s : ChatState} {now later : Nat} {outcome : RequestOutcome}
    (h1 : jsTrim s.input ≠ "") (h2 : s.isLoading = false) :
    handleSubmit s now outcome later =
      match outcome with
      | .success resp => resolveSuccess (submitStart s now) resp later
      | .failure err => resolveFailure (submitStart s now) err := by
  unfold handleSubmit
  rw [if_neg]
  push_neg
  refine ⟨h1, ?_⟩
  rw [h2]
  exact Bool.false_ne_true

/-! ### The claims -/

/-- C1: for every submission of a non-empty question that completes
successfully, the message list grows by exactly two entries appended in
order — first a user message whose content is the submitted (trimmed)
question, then an assistant message whose content is the returned
answer and which carries the returned sources list and processing
time. -/
theorem submit_success_appends_user_then_assistant
    (s : ChatState) (now : Nat) (resp : ChatResponse) (later : Nat)
    (hNe : jsTrim s.input ≠ "") (hIdle : s.isLoading = false) :
    ∃ u a : Message,
      (handleSubmit s now (.success resp) later).messages = s.messages ++ [u, a] ∧
      u.role = .user ∧ u.content = jsTrim s.input ∧
      a.role = .assistant ∧ a.content = resp.answer ∧
      a.sources = some resp.sources ∧ a.processingTime = some resp.processing_time := by
  refine
    ⟨{ id := toString now, role := .user, content := jsTrim s.input,
       sources := none, processingTime := none, timestamp := now },
     { id := toString (later + 1), role := .assistant, content := resp.answer,
       sources := some resp.sources, processingTime := some resp.processing_time,
       timestamp := later },
     ?_, rfl, rfl, rfl, rfl, rfl, rfl⟩
  rw [handleSubmit_accepted hNe hIdle, submitStart_accepted hNe hIdle]
  simp [resolveSuccess]

theorem submit_success_appends_user_then_assistant_witness :
    ∃ u a : Message,
      (handleSubmit
          { messages := [], input := "hello", isLoading := false, error := none,
            serviceFilter := .all, isFullScreen := true, inFlight := [] }
          5 (.success { answer := "ans", sources := [], processing_time := 2 }) 7).messages =
        [] ++ [u, a] ∧
      u.role = .user ∧ u.content = jsTrim "hello" ∧
      a.role = .assistant ∧ a.content = "ans" ∧
      a.sources = some [] ∧ a.processingTime = some 2 :=
  submit_success_appends_user_then_assistant
    { messages := [], input := "hello", isLoading := false, error := none,
      serviceFilter := .all, isFullScreen := true, inFlight := [] }
    5 { answer := "ans", sources := [], processing_time := 2 } 7 (by decide) rfl

/-- C2: for every submission whose request fails, the message list is
restored to exactly its pre-submission contents (the user message
appended at submission time is removed), a non-null error message is
recorded, and no assistant message is appended. -/
theorem submit_failure_rolls_back
    (s : ChatState) (now : Nat) (err : CaughtError) (later : Nat)
    (hNe : jsTrim s.input ≠ "") (hIdle : s.isLoading = false) :
    (handleSubmit s now (.failure err) later).messages = s.messages ∧
    (handleSubmit s now (.failure err) later).error = some (caughtErrorMessage err) := by
  rw [handleSubmit_accepted hNe hIdle, submitStart_accepted hNe hIdle]
  constructor
  · simp [resolveFailure]
  · rfl

theorem submit_failure_rolls_back_witness :
    (handleSubmit
        { messages := [], input := "hello", isLoading := false, error := none,
          serviceFilter := .all, isFullScreen := true, inFlight := [] }
        5 (.failure (.jsError "boom")) 7).messages = [] ∧
    (handleSubmit
        { messages := [], input := "hello", isLoading := false, error := none,
          serviceFilter := .all, isFullScreen := true, inFlight := [] }
        5 (.failure (.jsError "boom")) 7).error = some (caughtErrorMessage (.jsError "boom")) :=
  submit_failure_rolls_back
    { messages := [], input := "hello", isLoading := false, error := none,
      serviceFilter := .all, isFullScreen := true, inFlight := [] }
    5 (.jsError "boom") 7 (by decide) rfl

/-- C3: for every idle state (no request in flight) and every input
whose trimmed content is non-empty, submitting transitions the
controller to awaiting-response (loading flag set) and issues exactly
one backend request carrying that question and the currently selected
service filter value. -/
theorem submit_idle_issues_one_request
    (s : ChatState) (now : Nat)
    (hIdle : s.isLoading = false) (hNoFlight : s.inFlight = []) (hNe : jsTrim s.input ≠ "") :
    (submitStart s now).isLoading = true ∧
    (submitStart s now).inFlight =
      [{ question := jsTrim s.input, service_filter := s.serviceFilter }] := by
  rw [submitStart_accepted hNe hIdle]
  exact ⟨rfl, by simp [hNoFlight]⟩

theorem submit_idle_issues_one_request_witness :
    (submitStart
        { messages := [], input := "hello", isLoading := false, error := none,
          serviceFilter := .langgraph, isFullScreen := true, inFlight := [] } 5).isLoading =
      true ∧
    (submitStart
        { messages := [], input := "hello", isLoading := false, error := none,
          serviceFilter := .langgraph, isFullScreen := true, inFlight := [] } 5).inFlight =
      [{ question := jsTrim "hello", service_filter := .langgraph }] :=
  submit_idle_issues_one_request
    { messages := [], input := "hello", isLoading := false, error := none,
      serviceFilter := .langgraph, isFullScreen := true, inFlight := [] }
    5 rfl rfl (by decide)

/-- C4: for every controller state in which a request is already in
flight (loading flag set), invoking submit leaves the entire observable
state unchanged — no message is appended, no request is issued, and the
input, error, and loading fields are untouched. -/
theorem submit_while_loading_noop
    (s : ChatState) (now later : Nat) (outcome : RequestOutcome)
    (hLoading : s.isLoading = true) :
    submitStart s now = s ∧ handleSubmit s now outcome later = s :=
  ⟨submitStart_rejected (Or.inr hLoading), handleSubmit_rejected (Or.inr hLoading)⟩

theorem submit_while_loading_noop_witness :
    submitStart
        { messages := [], input := "hello", isLoading := true, error := none,
          serviceFilter := .all, isFullScreen := true,
          inFlight := [{ question := "q", service_filter := .all }] } 5 =
      { messages := [], input := "hello", isLoading := true, error := none,
        serviceFilter := .all, isFullScreen := true,
        inFlight := [{ question := "q", service_filter := .all }] } ∧
    handleSubmit
        { messages := [], input := "hello", isLoading := true, error := none,
          serviceFilter := .all, isFullScreen := true,
          inFlight := [{ question := "q", service_filter := .all }] }
        5 (.failure (.jsError "boom")) 7 =
      { messages := [], input := "hello", isLoading := true, error := none,
        serviceFilter := .all, isFullScreen := true,
        inFlight := [{ question := "q", service_filter := .all }] } :=
  submit_while_loading_noop
    { messages := [], input := "hello", isLoading := true, error := none,
      serviceFilter := .all, isFullScreen := true,
      inFlight := [{ question := "q", service_filter := .all }] }
    5 7 (.failure (.jsError "boom")) rfl

/-- C5: along every sequence of controller operations, the message list
is only ever mutated by appending a single message at the end, except
in the failure branch of a submission where exactly the last message is
removed (and an error is then recorded); and at most one request is in
flight at any time, before and after each step. -/
theorem message_list_append_only_and_single_flight
    (s s' : ChatState) (hr : Reachable s) (h : Step s s') :
    ((s'.messages = s.messages ∨ ∃ m, s'.messages = s.messages ++ [m]) ∨
      (∃ m, s.messages = s'.messages ++ [m] ∧ (s'.error).isSome = true)) ∧
    s.inFlight.length ≤ 1 ∧ s'.inFlight.length ≤ 1 := by
  have hinv := inv_reachable hr
  have hinv' := inv_step hinv h
  refine ⟨?_, hinv.2.1, hinv'.2.1⟩
  cases h with
  | setInput v => exact Or.inl (Or.inl rfl)
  | setFilter f => exact Or.inl (Or.inl rfl)
  | toggleFullScreen => exact Or.inl (Or.inl rfl)
  | submit now =>
      by_cases hg : jsTrim s.input = "" ∨ s.isLoading = true
      · rw [submitStart_rejected hg]
        exact Or.inl (Or.inl rfl)
      · push_neg at hg
        have hload : s.isLoading = false := by
          cases hb : s.isLoading with
          | false => rfl
          | true => exact absurd hb hg.2
        refine Or.inl (Or.inr
          ⟨{ id := toString now, role := .user, content := jsTrim s.input,
             sources := none, processingTime := none, timestamp := now }, ?_⟩)
        rw [submitStart_accepted hg.1 hload]
  | success resp later hne =>
      exact Or.inl (Or.inr
        ⟨{ id := toString (later + 1), role := .assistant, content := resp.answer,
           sources := some resp.sources, processingTime := some resp.processing_time,
           timestamp := later }, rfl⟩)
  | failure err hne =>
      have hmsgne : s.messages ≠ [] := hinv.2.2 (hinv.1.mpr hne)
      refine Or.inr ⟨s.messages.getLast hmsgne, ?_, rfl⟩
      show s.messages = s.messages.dropLast ++ [s.messages.getLast hmsgne]
      exact (List.dropLast_append_getLast hmsgne).symm

theorem message_list_append_only_and_single_flight_witness :
    (((setInput initState "hi").messages = initState.messages ∨
        ∃ m, (setInput initState "hi").messages = initState.messages ++ [m]) ∨
      (∃ m, initState.messages = (setInput initState "hi").messages ++ [m] ∧
        ((setInput initState "hi").error).isSome = true)) ∧
    initState.inFlight.length ≤ 1 ∧ (setInput initState "hi").inFlight.length ≤ 1 :=
  message_list_append_only_and_single_flight initState (setInput initState "hi")
    Reachable.init (Step.setInput initState "hi")

/-- C6 counterexample: the claim says the surfaced error is the
backend-provided detail whenever it is present; but when the detail is
present and equal to the empty string (falsy in JS), the code surfaces
the generic failure message instead of the detail. -/
theorem sendChatMessage_empty_detail_counterexample :
    sendChatMessage "why" ServiceFilter.all
        (ApiOutcome.err (HttpFailure.axios (some ""))) =
      Except.error (ClientError.newError "Failed to get response") ∧
    ("Failed to get response" : String) ≠ "" :=
  ⟨rfl, by decide⟩

/-- C6 (amended): for every failing call to sendChatMessage with an
HTTP-client error, the surfaced error message is the backend-provided
detail when it is present and non-empty, and the generic failure
message when the detail is absent or empty. -/
theorem sendChatMessage_error_message
    (q : String) (f : ServiceFilter) (d : String) (hd : d ≠ "") :
    sendChatMessage q f (.err (.axios (some d))) = .error (.newError d) ∧
    sendChatMessage q f (.err (.axios none)) =
      .error (.newError "Failed to get response") ∧
    sendChatMessage q f (.err (.axios (some ""))) =
      .error (.newError "Failed to get response") := by
  refine ⟨?_, rfl, rfl⟩
  simp [sendChatMessage, jsStringOr, hd]

theorem sendChatMessage_error_message_witness :
    sendChatMessage "q" .all (.err (.axios (some "boom"))) = .error (.newError "boom") ∧
    sendChatMessage "q" .all (.err (.axios none)) =
      .error (.newError "Failed to get response") ∧
    sendChatMessage "q" .all (.err (.axios (some ""))) =
      .error (.newError "Failed to get response") :=
  sendChatMessage_error_message "q" .all "boom" (by decide)

/-- C7: for every transport failure (and in fact every HTTP-client
failure, whatever detail the body may carry), checkHealth fails with
the generic "API is unavailable" error — it never surfaces a
backend-provided message — and on success it returns the response body,
with its readiness status and indexed document count. -/
theorem checkHealth_generic_error_and_passthrough
    (h : HealthResponse) (detail : Option String) :
    checkHealth (ApiOutcome.ok h) = Except.ok h ∧
    checkHealth (ApiOutcome.err (HttpFailure.axios detail)) =
      Except.error (ClientError.newError "API is unavailable") :=
  ⟨rfl, rfl⟩

/-- C8: for every controller state, changing the selected service
filter updates only the filter value: it issues no backend request
(the in-flight list is unchanged) and leaves the message list, error
state, loading state and input unchanged. -/
theorem setServiceFilter_only_changes_filter (s : ChatState) (f : ServiceFilter) :
    (setServiceFilter s f).serviceFilter = f ∧
    (setServiceFilter s f).messages = s.messages ∧
    (setServiceFilter s f).error = s.error ∧
    (setServiceFilter s f).isLoading = s.isLoading ∧
    (setServiceFilter s f).inFlight = s.inFlight ∧
    (setServiceFilter s f).input = s.input :=
  ⟨rfl, rfl, rfl, rfl, rfl, rfl⟩

/-- C9: for every submitted input, the question sent to the backend and
the content of the appended user message are the input with leading and
trailing whitespace removed; and an input whose trimmed form is empty
(in particular one consisting only of whitespace) is rejected exactly
like an empty one — no request, no state change. -/
theorem submit_trims_input_and_rejects_whitespace
    (s : ChatState) (now later : Nat) (outcome : RequestOutcome) :
    (s.isLoading = false → jsTrim s.input ≠ "" →
      ∃ u : Message,
        (submitStart s now).messages = s.messages ++ [u] ∧
        u.content = jsTrim s.input ∧ u.role = .user ∧
        (submitStart s now).inFlight =
          s.inFlight ++ [{ question := jsTrim s.input, service_filter := s.serviceFilter }]) ∧
    (jsTrim s.input = "" → submitStart s now = s ∧ handleSubmit s now outcome later = s) := by
  constructor
  · intro hIdle hNe
    refine
      ⟨{ id := toString now, role := .user, content := jsTrim s.input,
         sources := none, processingTime := none, timestamp := now },
       ?_, rfl, rfl, ?_⟩
    · rw [submitStart_accepted hNe hIdle]
    · rw [submitStart_accepted hNe hIdle]
  · intro hEmpty
    exact ⟨submitStart_rejected (Or.inl hEmpty), handleSubmit_rejected (Or.inl hEmpty)⟩

theorem submit_trims_input_and_rejects_whitespace_witness :
    (∃ u : Message,
      (submitStart
          { messages := [], input := "  hi there  ", isLoading := false, error := none,
            serviceFilter := .all, isFullScreen := true, inFlight := [] } 5).messages =
        [] ++ [u] ∧
      u.content = jsTrim "  hi there  " ∧ u.role = .user ∧
      (submitStart
          { messages := [], input := "  hi there  ", isLoading := false, error := none,
            serviceFilter := .all, isFullScreen := true, inFlight := [] } 5).inFlight =
        [] ++ [{ question := jsTrim "  hi there  ", service_filter := .all }]) ∧
    (submitStart
        { messages := [], input := "   ", isLoading := false, error := none,
          serviceFilter := .all, isFullScreen := true, inFlight := [] } 5 =
      { messages := [], input := "   ", isLoading := false, error := none,
        serviceFilter := .all, isFullScreen := true, inFlight := [] } ∧
     handleSubmit
        { messages := [], input := "   ", isLoading := false, error := none,
          serviceFilter := .all, isFullScreen := true, inFlight := [] }
        5 (.failure (.jsError "boom")) 7 =
      { messages := [], input := "   ", isLoading := false, error := none,
        serviceFilter := .all, isFullScreen := true, inFlight := [] }) :=
  ⟨(submit_trims_input_and_rejects_whitespace
      { messages := [], input := "  hi there  ", isLoading := false, error := none,
        serviceFilter := .all, isFullScreen := true, inFlight := [] }
      5 7 (.failure (.jsError "boom"))).1 rfl (by decide),
   (submit_trims_input_and_rejects_whitespace
      { messages := [], input := "   ", isLoading := false, error := none,
        serviceFilter := .all, isFullScreen := true, inFlight := [] }
      5 7 (.failure (.jsError "boom"))).2 (by decide)⟩

/-- C10: for every error that is not an HTTP-client (Axios) error, each
of the four API functions — sendChatMessage, checkHealth, getSources,
reindexDocuments — rethrows the error unchanged; the generic or
backend-derived message wrapping applies only to HTTP-client errors. -/
theorem non_axios_errors_rethrown_unchanged
    (q : String) (f : ServiceFilter) (services : Option (List String)) (e : ThrownValue) :
    sendChatMessage q f (.err (.other e)) = .error (.rethrown e) ∧
    checkHealth (.err (.other e)) = .error (.rethrown e) ∧
    getSources (.err (.other e)) = .error (.rethrown e) ∧
    reindexDocuments services (.err (.other e)) = .error (.rethrown e) :=
  ⟨rfl, rfl, rfl, rfl⟩

end LangChainAssistant
